import Mathlib

/-!
A verification development for the HIL control plane: the Dell S3048-ON
(Dell OS 9) switch driver in hil/ext/switches/dell-s3048.py, and the
resource-registry operations exercised by tests/unit/api.py.

The driver is embedded shallowly: each Python method becomes a Lean
function from the driver's configuration (and, where the method reads a
device response, from that response text) to the sequence of HTTP
requests the method issues, or to an error mirroring the Python
exception the method would raise.  Python string primitives that the
driver relies on (str.find, slicing, splitlines, replace, re.match) are
embedded with their exact Python 2 semantics.
-/

/-! ### Python string primitives -/

/-- Python list/str element test used by str.replace(c, ''): drop every
occurrence of one character. -/
def dropChar (c : Char) (l : List Char) : List Char :=
  l.filter (fun x => x ≠ c)

/-- str.replace('/', '-') on a one-character pattern: map each matching
character to the replacement. -/
def replaceChar (c r : Char) (l : List Char) : List Char :=
  l.map (fun x => if x = c then r else x)

/-- Does the list start with the given pattern? -/
def listStartsWith : List Char → List Char → Bool
  | _, [] => true
  | [], _ :: _ => false
  | c :: cs, p :: ps => c = p && listStartsWith cs ps

/-- First index at which the pattern occurs in the list, if any. -/
def findSub (pat : List Char) : List Char → Option Nat
  | [] => if listStartsWith [] pat then some 0 else none
  | c :: rest =>
    if listStartsWith (c :: rest) pat then some 0
    else (findSub pat rest).map (· + 1)

/-- Python str.find(pat, start): index of the first occurrence of pat at
or after start, or -1 when there is none. -/
def pyFind (s pat : List Char) (start : Nat) : Int :=
  if start > s.length then -1
  else
    match findSub pat (s.drop start) with
    | some i => ((start + i : Nat) : Int)
    | none => -1

/-- Python slice s[b:e] for a non-negative lower bound b and an integer
upper bound e (a negative e counts from the end of the string). -/
def pySlice (l : List Char) (b : Nat) (e : Int) : List Char :=
  let n := l.length
  let e' : Nat := if e < 0 then ((n : Int) + e).toNat else min e.toNat n
  (l.take e').drop (min b n)

/-- Python str.splitlines, worker: split at \n, \r\n or \r. -/
def splitlinesGo : List Char → List Char → List (List Char)
  | [], acc => [acc.reverse]
  | '\r' :: '\n' :: rest, acc => acc.reverse :: splitlinesGo rest []
  | '\n' :: rest, acc => acc.reverse :: splitlinesGo rest []
  | '\r' :: rest, acc => acc.reverse :: splitlinesGo rest []
  | c :: rest, acc => splitlinesGo rest (c :: acc)

/-- Python str.splitlines: like the worker, but a trailing line
terminator produces no final empty line, and an empty string produces
no lines at all. -/
def pySplitlines (l : List Char) : List (List Char) :=
  let ls := splitlinesGo l []
  if ls.getLast? = some [] then ls.dropLast else ls

/-- Association-list lookup, the semantics of a lookup in a keyed
collection: the value of the first matching key. -/
def assocFind {κ α : Type} [DecidableEq κ] : List (κ × α) → κ → Option α
  | [], _ => none
  | (k, v) :: rest, key => if k = key then some v else assocFind rest key

/-- Pointwise update of an association list, keeping keys fixed. -/
def mapVal {κ α : Type} (g : κ → α → α) (l : List (κ × α)) : List (κ × α) :=
  l.map fun p => (p.1, g p.1 p.2)

/-- Byte-lexicographic comparison of character lists, the order Python's
sorted() uses on these ASCII labels. -/
def listLexLe : List Char → List Char → Bool
  | [], _ => true
  | _ :: _, [] => false
  | a :: as, b :: bs => if a = b then listLexLe as bs else decide (a < b)

/-- Byte-lexicographic order on strings. -/
def strLe (a b : String) : Bool :=
  listLexLe a.data b.data

/-- strLe as a relation, for sorting. -/
def strLeP (a b : String) : Prop := strLe a b = true

instance : DecidableRel strLeP := fun a b =>
  inferInstanceAs (Decidable (strLe a b = true))

instance {ε α : Type} [DecidableEq ε] [DecidableEq α] : DecidableEq (Except ε α) :=
  fun x y =>
    match x, y with
    | .ok a, .ok b =>
      if h : a = b then isTrue (by rw [h])
      else isFalse fun c => h (by injection c)
    | .error a, .error b =>
      if h : a = b then isTrue (by rw [h])
      else isFalse fun c => h (by injection c)
    | .ok _, .error _ => isFalse fun c => Except.noConfusion c
    | .error _, .ok _ => isFalse fun c => Except.noConfusion c

/-! ### Driver data model -/

namespace DellNOS9

/-- HTTP method of a request the driver issues. -/
inductive Method
  | GET
  | POST
  | PUT
deriving DecidableEq, Repr

/-- One HTTP request issued by the driver: requests.request(method, url,
data=payload) with the switch's basic-auth credentials. -/
structure Request where
  method : Method
  url : String
  payload : Option String
deriving DecidableEq, Repr

/-- Python exceptions the driver's code paths can raise. -/
inductive PyErr
  | keyError
  | valueError
  | assertionError
  | badArgumentError
  | indexError
  | typeError
deriving DecidableEq, Repr

/-- The DellNOS9 switch record: hostname, credentials, the CLI-form
interface type, and the labels of the registered ports. -/
structure Config where
  hostname : String
  username : String
  password : String
  interface_type : String
  ports : List String
deriving DecidableEq, Repr

/-- The CONFIG constant: tag name for CLI mutation payloads. -/
def CONFIG : String := "config-commands"

/-- The SHOW constant: tag name for CLI read payloads. -/
def SHOW : String := "show-command"

/-- _make_payload: wrap CLI command text in the XML envelope. -/
def make_payload (tag text : String) : String :=
  "<input><" ++ tag ++ ">" ++ text ++ "</" ++ tag ++ "></input>"

/-- The port-name grammar of the driver, the full-match language of the
regular expression in validate_port_name and _construct_url: two or
three nonempty runs of ASCII digits separated by single slashes. -/
def matchPortName (s : String) : Bool :=
  let parts := s.data.splitOn '/'
  (parts.length == 2 || parts.length == 3) && parts.all fun g =>
    !g.isEmpty && g.all Char.isDigit

/-- Python re.match semantics for the anchored pattern of the port-name
grammar: the dollar anchor of Python re also matches just before a
single newline at the very end of the string, so re.match accepts both
the exact grammar and the grammar followed by one trailing newline. -/
def pyMatchPortName (s : String) : Bool :=
  matchPortName s ||
    (s.data.getLast? == some '\n' && matchPortName (String.mk s.data.dropLast))

/-- validate_port_name: raise BadArgumentError when re.match on the
port-name pattern fails, return None otherwise. -/
def validate_port_name (port : String) : Except PyErr Unit :=
  if pyMatchPortName port then .ok () else .error .badArgumentError

/-- The iftypes lookup table of _convert_interface. -/
def iftypes : List (String × String) :=
  [("GigabitEthernet", "gige-"), ("TenGigabitEthernet", "tengig-"),
   ("TwentyfiveGigabitEthernet", "twentyfivegig-"),
   ("fortyGigE", "fortygig-"), ("peGigabitEthernet", "pegig-"),
   ("FiftyGigabitEthernet", "fiftygig-"),
   ("HundredGigabitEthernet", "hundredgig-")]

/-- _convert_interface: dict lookup in iftypes; a missing key raises
KeyError. -/
def convert_interface (t : String) : Except PyErr String :=
  match assocFind iftypes t with
  | some v => .ok v
  | none => .error .keyError

/-- The REST-API-CLI operations URL (_construct_url with interface
None). -/
def cli_url (c : Config) : String :=
  c.hostname ++ "/api/running/dell/_operations/cli"

/-- _construct_url: the CLI URL when no interface is given; otherwise
the interface resource URL, with slashes of a port name replaced by
dashes and the interface type translated through _convert_interface
(which can raise KeyError), or the vlan- path for a non-port-name
interface.  A nonempty suffix is appended after a slash. -/
def construct_url (c : Config) (iface? : Option String) (suffix : String) :
    Except PyErr String :=
  match iface? with
  | none => .ok (cli_url c)
  | some iface =>
    let tail := if suffix = "" then "" else "/" ++ suffix
    if pyMatchPortName iface then
      match convert_interface c.interface_type with
      | .error e => .error e
      | .ok t =>
        .ok (c.hostname ++ "/api/running/dell/interfaces/interface/" ++ t ++
          String.mk (replaceChar '/' '-' iface.data) ++ tail)
    else
      .ok (c.hostname ++ "/api/running/dell/interfaces/interface/" ++
        "vlan-" ++ iface ++ tail)

/-- The CLI show command sent by _get_vlans and _get_native_vlan. -/
def show_command (c : Config) (iface : String) : String :=
  "interfaces switchport " ++ c.interface_type ++ " " ++ iface

/-- The POST request carrying a CLI show command. -/
def show_request (c : Config) (iface : String) : Request :=
  ⟨.POST, cli_url c, some (make_payload SHOW (show_command c iface))⟩

/-- The POST request carrying CLI configuration command text. -/
def config_request (c : Config) (text : String) : Request :=
  ⟨.POST, cli_url c, some (make_payload CONFIG text)⟩

/-- The parsing step of _get_native_vlan: strip spaces from the response
text, then take the characters between the first occurrence of
NativeVlanId: and the following dot (Python str.find returning -1 and
Python slicing semantics apply when either marker is absent). -/
def parse_native_vlan (text : String) : String :=
  let r := dropChar ' ' text.data
  let b := (pyFind r ("NativeVlanId:".data) 0 + 13).toNat
  let e := pyFind r ['.'] b
  String.mk (pySlice r b e)

/-- _get_native_vlan: issue the CLI show command for the interface and
parse the native VLAN out of the response text.  The Python docstring
advertises a tuple or None, but the code unconditionally returns the
tuple ('vlan/native', vlan). -/
def get_native_vlan (c : Config) (iface : String) (respText : String) :
    Request × Option (String × String) :=
  (show_request c iface, some ("vlan/native", parse_native_vlan respText))

/-- The parsing step of _get_vlans: strip spaces, split the response
into lines, find the line Vlanmembership: (list.index raises ValueError
when absent), move three lines down (IndexError when out of range),
drop every T, split on commas, and build ('vlan/x', x) pairs. -/
def parse_vlans (text : String) : Except PyErr (List (String × String)) :=
  let ls := pySplitlines (dropChar ' ' text.data)
  match ls.findIdx? (fun l => l == "Vlanmembership:".data) with
  | none => .error .valueError
  | some i =>
    match ls.get? (i + 3) with
    | none => .error .indexError
    | some line =>
      let vl := (dropChar 'T' line).splitOn ','
      .ok (vl.map fun x => ("vlan/" ++ String.mk x, String.mk x))

/-- _get_vlans: issue the CLI show command and parse the trunk VLAN
list out of the response text. -/
def get_vlans (c : Config) (iface : String) (respText : String) :
    Request × Except PyErr (List (String × String)) :=
  (show_request c iface, parse_vlans respText)

/-- _add_vlan_to_trunk: POST the tagged configuration command. -/
def add_vlan_to_trunk (c : Config) (iface vlan : String) : Request :=
  config_request c
    ("interface vlan " ++ vlan ++ "\r\n tagged " ++ c.interface_type ++ " " ++ iface)

/-- _remove_vlan_from_trunk: POST the no-tagged configuration command. -/
def remove_vlan_from_trunk (c : Config) (iface vlan : String) : Request :=
  config_request c
    ("interface vlan " ++ vlan ++ "\r\n no tagged " ++ c.interface_type ++ " " ++ iface)

/-- _set_native_vlan: POST the untagged configuration command. -/
def set_native_vlan (c : Config) (iface vlan : String) : Request :=
  config_request c
    ("interface vlan " ++ vlan ++ "\r\n untagged " ++ c.interface_type ++ " " ++ iface)

/-- _remove_native_vlan: query the current native VLAN with
_get_native_vlan (one show request) and POST the no-untagged command
for it (a second request). -/
def remove_native_vlan (c : Config) (iface : String) (respText : String) :
    Except PyErr (List Request) :=
  match get_native_vlan c iface respText with
  | (showReq, some (_, vlan)) =>
    .ok [showReq,
      config_request c
        ("interface vlan " ++ vlan ++ "\r\n no untagged " ++
          c.interface_type ++ " " ++ iface)]
  | (_, none) => .error .typeError

/-- The regex group extraction of modify_port for a tagged channel:
re.match against vlan/(\d+) anchors at the start only, so it succeeds
exactly when the channel starts with vlan/ followed by at least one
digit, and captures the maximal leading digit run. -/
def parseTaggedChannel (channel : String) : Option String :=
  match channel.data with
  | 'v' :: 'l' :: 'a' :: 'n' :: '/' :: rest =>
    let ds := rest.takeWhile Char.isDigit
    if ds.isEmpty then none else some (String.mk ds)
  | _ => none

/-- modify_port: unpack the unique port with the given label (a
ValueError when the label does not occur exactly once), then dispatch:
the native channel removes or sets the native VLAN according to whether
network_id is None; a tagged channel is parsed with re.match (an
AssertionError on failure), and with a non-None network_id the driver
asserts network_id equals the channel's VLAN id before adding it to the
trunk.  respText stands for the device's response to the show command
that _remove_native_vlan issues. -/
def modify_port (c : Config) (port channel : String) (network_id : Option String)
    (respText : String) : Except PyErr (List Request) :=
  match c.ports.filter (fun p => p == port) with
  | [p] =>
    if channel = "vlan/native" then
      match network_id with
      | none => remove_native_vlan c p respText
      | some n => .ok [set_native_vlan c p n]
    else
      match parseTaggedChannel channel with
      | none => .error .assertionError
      | some vlan_id =>
        match network_id with
        | none => .ok [remove_vlan_from_trunk c p vlan_id]
        | some n =>
          if n = vlan_id then .ok [add_vlan_to_trunk c p vlan_id]
          else .error .assertionError
  | _ => .error .valueError

/-- _port_shutdown: PUT the interface resource body that turns hybrid
portmode off, leaves switchport out (disabling it), and sets shutdown
true. -/
def port_shutdown (c : Config) (iface : String) : Except PyErr Request :=
  match construct_url c (some iface) "" with
  | .error e => .error e
  | .ok url =>
    match convert_interface c.interface_type with
    | .error e => .error e
    | .ok t =>
      let iname := t ++ String.mk (replaceChar '/' '-' iface.data)
      .ok ⟨.PUT, url,
        some ("<interface><name>" ++ iname ++ "</name><portmode><hybrid>false" ++
          "</hybrid></portmode><shutdown>true</shutdown>" ++ "</interface>")⟩

/-- _port_on: PUT the interface resource body that turns hybrid
portmode on, enables switchport, and sets shutdown false. -/
def port_on (c : Config) (iface : String) : Except PyErr Request :=
  match construct_url c (some iface) "" with
  | .error e => .error e
  | .ok url =>
    match convert_interface c.interface_type with
    | .error e => .error e
    | .ok t =>
      let iname := t ++ String.mk (replaceChar '/' '-' iface.data)
      .ok ⟨.PUT, url,
        some ("<interface><name>" ++ iname ++ "</name><portmode><hybrid>true" ++
          "</hybrid></portmode><switchport></switchport>" ++
          "<shutdown>false</shutdown></interface>")⟩

/-- revert_port: _port_shutdown followed by _port_on, in that order. -/
def revert_port (c : Config) (iface : String) : Except PyErr (List Request) :=
  match port_shutdown c iface with
  | .error e => .error e
  | .ok r1 =>
    match port_on c iface with
    | .error e => .error e
    | .ok r2 => .ok [r1, r2]

/-- get_port_networks: for each port, the native-VLAN entry (run
through Python's filter(None, ...), which keeps every truthy element —
a nonempty tuple is always truthy) followed by the trunk-VLAN entries.
device maps each port label to the response text of the show command.
A parse failure in _get_vlans propagates as the Python exception
would. -/
def get_port_networks (c : Config) (ports : List String)
    (device : String → String) :
    Except PyErr (List (String × List (String × String))) :=
  match ports with
  | [] => .ok []
  | p :: ps =>
    let nat? := (get_native_vlan c p (device p)).2
    match (get_vlans c p (device p)).2 with
    | .error e => .error e
    | .ok vl =>
      match get_port_networks c ps device with
      | .error e => .error e
      | .ok rest => .ok ((p, ([nat?].filterMap id) ++ vl) :: rest)

/-- An HTTP response as the requests library hands it back: status code
and body text. -/
structure HttpResponse where
  status : Nat
  text : String
deriving DecidableEq, Repr

/-- _make_request, given the response the transport produced: when the
status code is at least 400 and not in acceptable_error_codes, print
and log the failure; in every case the raw response object is returned
to the caller (the function body holds no raise and no typed error).
The first component collects the logged error lines. -/
def make_request (resp : HttpResponse) (acceptable_error_codes : List Nat) :
    List String × HttpResponse :=
  if resp.status ≥ 400 ∧ ¬ acceptable_error_codes.contains resp.status then
    (["Bad Request to switch. Response: " ++ resp.text], resp)
  else ([], resp)

/-- Logical state of a physical switch port, as described by the spec's
channel model and the fast-path interface resource body: administrative
shutdown, switchport, hybrid portmode, and the VLAN assignments. -/
structure PortState where
  hybrid : Bool
  switchport : Bool
  shutdown : Bool
  taggedVlans : List String
  nativeVlan : Option String
deriving DecidableEq, Repr

/-- Device semantics of the _port_shutdown PUT body (from its payload
and docstring: turn off portmode hybrid, disable switchport, shut the
port down); VLAN memberships are not touched. -/
def apply_shutdown_put (ps : PortState) : PortState :=
  { ps with hybrid := false, switchport := false, shutdown := true }

/-- Device semantics of the _port_on PUT body (from its payload and
docstring: enable hybrid portmode and switchport, bring the port up);
VLAN memberships are not touched. -/
def apply_on_put (ps : PortState) : PortState :=
  { ps with hybrid := true, switchport := true, shutdown := false }

end DellNOS9

/-!
### Resource Registry

The registry implementation itself (haas/api.py and haas/model.py) is
not part of the sources; only its unit tests are.  The definitions
below are therefore modelled from the spec (sections 3, 4.1, 6, 7 and
8) and from the behavior the unit tests in tests/unit/api.py pin down.
-/

namespace Registry

/-- The registry's error taxonomy (spec section 7), restricted to the
errors the modelled operations raise. -/
inductive RErr
  | NotFoundError
  | DuplicateError
deriving DecidableEq, Repr

/-- Modelled from the spec: a Nic record — owning node (immutable), MAC
address, and the optional attached network. -/
structure NicRec where
  node : String
  mac : String
  network : Option String
deriving DecidableEq, Repr

/-- Modelled from the spec: a Network record — owning project
(immutable) and the labels of the attached Nics. -/
structure NetworkRec where
  project : String
  nics : List String
deriving DecidableEq, Repr

/-- Modelled from the spec: the registry's entity graph.  Nodes map to
their optional owning project; ports are keyed by (switch label, port
label) and map to their optionally bound nic. -/
structure RState where
  groups : List String
  projects : List (String × String)
  nodes : List (String × Option String)
  nics : List (String × NicRec)
  networks : List (String × NetworkRec)
  switches : List String
  ports : List ((String × String) × Option String)
deriving DecidableEq, Repr

/-- The empty registry. -/
def empty : RState := ⟨[], [], [], [], [], [], []⟩

/-- Modelled from the spec: group_create — DuplicateError when the
label exists, otherwise add the group. -/
def group_create (s : RState) (label : String) : Option RErr × RState :=
  if s.groups.contains label then (some .DuplicateError, s)
  else (none, { s with groups := s.groups ++ [label] })

/-- Modelled from the spec: project_create — NotFoundError when the
owning group is absent, DuplicateError when the label exists. -/
def project_create (s : RState) (label group : String) : Option RErr × RState :=
  if ¬ s.groups.contains group then (some .NotFoundError, s)
  else if (assocFind s.projects label).isSome then (some .DuplicateError, s)
  else (none, { s with projects := s.projects ++ [(label, group)] })

/-- Modelled from the spec: node_register — DuplicateError when the
label exists; a fresh node has no owning project. -/
def node_register (s : RState) (label : String) : Option RErr × RState :=
  if (assocFind s.nodes label).isSome then (some .DuplicateError, s)
  else (none, { s with nodes := s.nodes ++ [(label, none)] })

/-- Modelled from the spec: node_register_nic — NotFoundError when the
node is absent, DuplicateError when the nic label is used by any node
(nic labels are globally unique). -/
def node_register_nic (s : RState) (node nicL mac : String) :
    Option RErr × RState :=
  if (assocFind s.nodes node).isNone then (some .NotFoundError, s)
  else if (assocFind s.nics nicL).isSome then (some .DuplicateError, s)
  else (none, { s with nics := s.nics ++ [(nicL, ⟨node, mac, none⟩)] })

/-- Modelled from the spec: network_create — NotFoundError when the
owning project is absent, DuplicateError when the label exists.  The
allocated network identifier comes from the excluded external
allocator and is not modelled. -/
def network_create (s : RState) (label project : String) :
    Option RErr × RState :=
  if (assocFind s.projects project).isNone then (some .NotFoundError, s)
  else if (assocFind s.networks label).isSome then (some .DuplicateError, s)
  else (none, { s with networks := s.networks ++ [(label, ⟨project, []⟩)] })

/-- Modelled from the spec: switch_register — DuplicateError when the
label exists. -/
def switch_register (s : RState) (label : String) : Option RErr × RState :=
  if s.switches.contains label then (some .DuplicateError, s)
  else (none, { s with switches := s.switches ++ [label] })

/-- Modelled from the spec: port_register — NotFoundError when the
switch is absent, DuplicateError when the (switch, port) pair exists. -/
def port_register (s : RState) (sw portL : String) : Option RErr × RState :=
  if ¬ s.switches.contains sw then (some .NotFoundError, s)
  else if (assocFind s.ports (sw, portL)).isSome then (some .DuplicateError, s)
  else (none, { s with ports := s.ports ++ [((sw, portL), none)] })

/-- Modelled from the spec: project_connect_node — NotFoundError when
the project or node is absent, DuplicateError when the node is already
owned by a project (an occupied relationship slot). -/
def project_connect_node (s : RState) (project node : String) :
    Option RErr × RState :=
  if (assocFind s.projects project).isNone then (some .NotFoundError, s)
  else
    match assocFind s.nodes node with
    | none => (some .NotFoundError, s)
    | some (some _) => (some .DuplicateError, s)
    | some none =>
      let nodes' := mapVal (fun k v => if k = node then some project else v) s.nodes
      (none, { s with nodes := nodes' })

/-- Modelled from the spec: port_connect_nic — NotFoundError when the
switch, port, node or nic is absent or the nic is not owned by the
node; DuplicateError when the port already has a bound nic or the nic
is already bound to any port (mutual exclusivity, checked both ways);
all preconditions are validated before the single mutation. -/
def port_connect_nic (s : RState) (sw portL node nicL : String) :
    Option RErr × RState :=
  if ¬ s.switches.contains sw then (some .NotFoundError, s)
  else
    match assocFind s.ports (sw, portL) with
    | none => (some .NotFoundError, s)
    | some slot =>
      if (assocFind s.nodes node).isNone then (some .NotFoundError, s)
      else
        match assocFind s.nics nicL with
        | none => (some .NotFoundError, s)
        | some nr =>
          if nr.node ≠ node then (some .NotFoundError, s)
          else if slot.isSome then (some .DuplicateError, s)
          else if s.ports.any (fun q => q.2 == some nicL) then
            (some .DuplicateError, s)
          else
            let ports' :=
              mapVal (fun k v => if k = (sw, portL) then some nicL else v) s.ports
            (none, { s with ports := ports' })

/-- Set the network field of every nic entry with the given label. -/
def setNicNetwork (nics : List (String × NicRec)) (nicL : String)
    (net : Option String) : List (String × NicRec) :=
  mapVal (fun k r => if k = nicL then { r with network := net } else r) nics

/-- Add a nic label to the nic set of the named network. -/
def addNicToNetwork (networks : List (String × NetworkRec)) (net nicL : String) :
    List (String × NetworkRec) :=
  mapVal (fun k r => if k = net then { r with nics := nicL :: r.nics } else r)
    networks

/-- Remove a nic label from the nic set of the named network. -/
def removeNicFromNetwork (networks : List (String × NetworkRec))
    (net nicL : String) : List (String × NetworkRec) :=
  mapVal
    (fun k r => if k = net then { r with nics := r.nics.filter (· ≠ nicL) } else r)
    networks

/-- Modelled from the spec: node_connect_network — NotFoundError when
the node, nic or network is absent, the nic is not owned by the node,
the node is not connected to a project, or that project does not own
the network; DuplicateError when the nic is already attached to any
network.  On success both sides of the relationship are established:
the nic's network pointer and the network's nic set. -/
def node_connect_network (s : RState) (node nicL net : String) :
    Option RErr × RState :=
  match assocFind s.nodes node with
  | none => (some .NotFoundError, s)
  | some proj? =>
    match assocFind s.nics nicL with
    | none => (some .NotFoundError, s)
    | some nr =>
      if nr.node ≠ node then (some .NotFoundError, s)
      else
        match proj? with
        | none => (some .NotFoundError, s)
        | some proj =>
          match assocFind s.networks net with
          | none => (some .NotFoundError, s)
          | some netr =>
            if netr.project ≠ proj then (some .NotFoundError, s)
            else
              match nr.network with
              | some _ => (some .DuplicateError, s)
              | none =>
                (none, { s with
                  nics := setNicNetwork s.nics nicL (some net),
                  networks := addNicToNetwork s.networks net nicL })

/-- Modelled from the spec: node_detach_network — NotFoundError when
the nic is absent, not owned by the node, or not attached to any
network.  On success both sides of the relationship are cleared. -/
def node_detach_network (s : RState) (node nicL : String) :
    Option RErr × RState :=
  match assocFind s.nics nicL with
  | none => (some .NotFoundError, s)
  | some nr =>
    if nr.node ≠ node then (some .NotFoundError, s)
    else
      match nr.network with
      | none => (some .NotFoundError, s)
      | some net =>
        (none, { s with
          nics := setNicNetwork s.nics nicL none,
          networks := removeNicFromNetwork s.networks net nicL })

/-- Modelled from the spec: list_free_nodes — the labels of the nodes
with no owning project, serialized deterministically in sorted order. -/
def list_free_nodes (s : RState) : List String :=
  List.insertionSort strLeP
    ((s.nodes.filter (fun p => p.2.isNone)).map (fun p => p.1))

/-- The symmetry invariant of spec section 8: a Nic's network pointer
is set to a network exactly when the nic's label appears in that
network's nic set (stated through first-match lookup on both sides). -/
def Sym (s : RState) : Prop :=
  ∀ nl nr, assocFind s.nics nl = some nr →
    (∀ net, nr.network = some net →
      ∃ netr, assocFind s.networks net = some netr ∧ nl ∈ netr.nics) ∧
    (∀ net netr, assocFind s.networks net = some netr → nl ∈ netr.nics →
      nr.network = some net)

end Registry

/-! ### Concrete instances used by witnesses and counterexamples -/

/-- A concrete DellNOS9 switch with one registered port 1/3. -/
def demoCfg : DellNOS9.Config :=
  ⟨"host", "u", "p", "GigabitEthernet", ["1/3"]⟩

/-- A concrete port state: up, hybrid, one tagged VLAN, a native VLAN. -/
def demoPortState : DellNOS9.PortState :=
  ⟨true, true, false, ["52"], some "23"⟩

/-- The PUT request _port_shutdown issues for port 1/3 of demoCfg. -/
def demoShutdownReq : DellNOS9.Request :=
  ⟨.PUT, "host/api/running/dell/interfaces/interface/gige-1-3",
    some ("<interface><name>gige-1-3</name><portmode><hybrid>false" ++
      "</hybrid></portmode><shutdown>true</shutdown></interface>")⟩

/-- The PUT request _port_on issues for port 1/3 of demoCfg. -/
def demoOnReq : DellNOS9.Request :=
  ⟨.PUT, "host/api/running/dell/interfaces/interface/gige-1-3",
    some ("<interface><name>gige-1-3</name><portmode><hybrid>true" ++
      "</hybrid></portmode><switchport></switchport>" ++
      "<shutdown>false</shutdown></interface>")⟩

/-- A populated registry: group g owns project pj; node nd is in pj and
owns nics nic1 (attached to network net, bound to switch port (sw,1))
and nic2 (unattached); node n2 is free; port (sw,2) is empty. -/
def demoRegState : Registry.RState :=
  ⟨["g"], [("pj", "g")], [("nd", some "pj"), ("n2", none)],
   [("nic1", ⟨"nd", "m1", some "net"⟩), ("nic2", ⟨"nd", "m2", none⟩)],
   [("net", ⟨"pj", ["nic1"]⟩)], ["sw"],
   [(("sw", "1"), some "nic1"), (("sw", "2"), none)]⟩

/-- A registry with one unattached nic eth0 on node nd (project pj) and
one empty network hammernet owned by pj. -/
def demoNet0 : Registry.RState :=
  ⟨["g"], [("pj", "g")], [("nd", some "pj")],
   [("eth0", ⟨"nd", "mac", none⟩)], [("hammernet", ⟨"pj", []⟩)], [], []⟩

/-- demoNet0 after node_connect_network nd eth0 hammernet: both sides
of the attachment are set. -/
def demoNet1 : Registry.RState :=
  ⟨["g"], [("pj", "g")], [("nd", some "pj")],
   [("eth0", ⟨"nd", "mac", some "hammernet"⟩)],
   [("hammernet", ⟨"pj", ["eth0"]⟩)], [], []⟩

/-! ### Helper lemmas -/

lemma assocFind_mem {κ α : Type} [DecidableEq κ] {l : List (κ × α)} {k : κ} {v : α}
    (h : assocFind l k = some v) : (k, v) ∈ l := by
  induction l with
  | nil => simp [assocFind] at h
  | cons p rest ih =>
    obtain ⟨k', v'⟩ := p
    by_cases hk : k' = k
    · subst hk
      simp [assocFind] at h
      simp [h]
    · simp only [assocFind, if_neg hk] at h
      exact List.mem_cons_of_mem _ (ih h)

lemma assocFind_mapVal {κ α : Type} [DecidableEq κ] (g : κ → α → α)
    (l : List (κ × α)) (k : κ) :
    assocFind (mapVal g l) k = (assocFind l k).map (g k) := by
  induction l with
  | nil => rfl
  | cons p rest ih =>
    obtain ⟨k', v'⟩ := p
    by_cases hk : k' = k
    · subst hk
      simp [mapVal, assocFind]
    · simp only [mapVal, List.map_cons, assocFind, if_neg hk] at ih ⊢
      exact ih

lemma listLexLe_total : ∀ as bs, listLexLe as bs = true ∨ listLexLe bs as = true := by
  intro as
  induction as with
  | nil => intro bs; left; rfl
  | cons a as ih =>
    intro bs
    cases bs with
    | nil => right; rfl
    | cons b bs =>
      by_cases hab : a = b
      · subst hab
        rcases ih bs with h | h
        · left; simpa [listLexLe] using h
        · right; simpa [listLexLe] using h
      · rcases lt_or_gt_of_ne hab with h | h
        · left; simp [listLexLe, hab, h]
        · right
          have hba : ¬ b = a := fun e => hab (Eq.symm e)
          have hlt : b < a := h
          simp [listLexLe, hba, hlt]

lemma listLexLe_trans :
    ∀ as bs cs, listLexLe as bs = true → listLexLe bs cs = true →
      listLexLe as cs = true := by
  intro as
  induction as with
  | nil => intro bs cs h1 h2; rfl
  | cons a as ih =>
    intro bs cs h1 h2
    cases bs with
    | nil => simp [listLexLe] at h1
    | cons b bs =>
      cases cs with
      | nil => simp [listLexLe] at h2
      | cons c cs =>
        by_cases hab : a = b <;> by_cases hbc : b = c
        · subst hab; subst hbc
          simp only [listLexLe, if_pos rfl] at h1 h2 ⊢
          exact ih bs cs h1 h2
        · subst hab
          simp only [listLexLe, if_pos rfl, if_neg hbc] at h2 ⊢
          simp [hbc, h2]
        · subst hbc
          simp only [listLexLe, if_neg hab] at h1 ⊢
          simp [hab, h1]
        · simp only [listLexLe, if_neg hab, if_neg hbc, decide_eq_true_eq] at h1 h2
          have hac : a < c := lt_trans h1 h2
          have : a ≠ c := ne_of_lt hac
          simp [listLexLe, this, hac]

instance : IsTotal String strLeP :=
  ⟨fun a b => listLexLe_total a.data b.data⟩

instance : IsTrans String strLeP :=
  ⟨fun a b c => listLexLe_trans a.data b.data c.data⟩

/-! ### Claim C4 -/

/-- Claim C4, counterexample: at the name consisting of a valid port
name followed by one newline, validate_port_name returns normally (the
Python dollar anchor matches just before a trailing newline) although
the name does not match the grammar, so the claimed equivalence — the
call raises BadArgumentError exactly when the name does not match the
grammar — is false at this input. -/
theorem c4_counterexample :
    ¬ ((DellNOS9.validate_port_name "1/2\n" =
          Except.error DellNOS9.PyErr.badArgumentError) ↔
        DellNOS9.matchPortName "1/2\n" = false) := by
  decide

/-- Claim C4, amended: validate_port_name raises BadArgumentError
exactly when the name fails Python re.match on the anchored pattern —
that is, when neither the name nor (when it ends in a newline) the name
less that final newline matches the grammar; "1/0/1" and "1/2" are
accepted, a valid name with one trailing newline is also accepted, and
"a/b" is rejected with BadArgumentError. -/
theorem c4_validate_port_name :
    (∀ name : String,
      DellNOS9.validate_port_name name =
          Except.error DellNOS9.PyErr.badArgumentError ↔
        ¬ (DellNOS9.matchPortName name = true ∨
            (name.data.getLast? = some '\n' ∧
             DellNOS9.matchPortName (String.mk name.data.dropLast) = true))) ∧
    DellNOS9.validate_port_name "1/0/1" = Except.ok () ∧
    DellNOS9.validate_port_name "1/2" = Except.ok () ∧
    DellNOS9.validate_port_name "1/2\n" = Except.ok () ∧
    DellNOS9.validate_port_name "a/b" =
      Except.error DellNOS9.PyErr.badArgumentError := by
  refine ⟨fun name => ?_, by decide, by decide, by decide, by decide⟩
  by_cases hm : DellNOS9.matchPortName name = true
  · simp [DellNOS9.validate_port_name, DellNOS9.pyMatchPortName, hm]
  · by_cases hg : name.data.getLast? = some '\n'
    · by_cases hm2 : DellNOS9.matchPortName (String.mk name.data.dropLast) = true
      · simp [DellNOS9.validate_port_name, DellNOS9.pyMatchPortName, hm, hg, hm2]
      · simp [DellNOS9.validate_port_name, DellNOS9.pyMatchPortName, hm, hg, hm2]
    · simp [DellNOS9.validate_port_name, DellNOS9.pyMatchPortName, hm, hg]

/-! ### Claim C7 -/

/-- Claim C7: _make_request always hands the raw response object back
to the caller (its return value is the response, whatever the status)
and raises no typed error — its result type carries no error case; it
logs a failure line exactly when the status code is at least 400 and
not in the explicit allow-list of acceptable error codes. -/
theorem c7_make_request :
    ∀ (resp : DellNOS9.HttpResponse) (acceptable : List Nat),
      (DellNOS9.make_request resp acceptable).2 = resp ∧
      ((DellNOS9.make_request resp acceptable).1 ≠ [] ↔
        (resp.status ≥ 400 ∧ resp.status ∉ acceptable)) := by
  intro resp acceptable
  by_cases h : resp.status ≥ 400 ∧ resp.status ∉ acceptable
  · simp [DellNOS9.make_request, h]
  · simp [DellNOS9.make_request, h]

/-! ### Claim C9 -/

/-- Claim C9: the interface-name translation is exactly the fixed
seven-entry lookup table; every interface type outside the table's
domain raises KeyError; and the URL constructed for a name matching the
port grammar embeds the name with every slash replaced by a dash. -/
theorem c9_interface_translation :
    DellNOS9.convert_interface "GigabitEthernet" = Except.ok "gige-" ∧
    DellNOS9.convert_interface "TenGigabitEthernet" = Except.ok "tengig-" ∧
    DellNOS9.convert_interface "TwentyfiveGigabitEthernet" =
      Except.ok "twentyfivegig-" ∧
    DellNOS9.convert_interface "fortyGigE" = Except.ok "fortygig-" ∧
    DellNOS9.convert_interface "peGigabitEthernet" = Except.ok "pegig-" ∧
    DellNOS9.convert_interface "FiftyGigabitEthernet" = Except.ok "fiftygig-" ∧
    DellNOS9.convert_interface "HundredGigabitEthernet" =
      Except.ok "hundredgig-" ∧
    (∀ t : String,
      t ∉ ["GigabitEthernet", "TenGigabitEthernet", "TwentyfiveGigabitEthernet",
            "fortyGigE", "peGigabitEthernet", "FiftyGigabitEthernet",
            "HundredGigabitEthernet"] →
      DellNOS9.convert_interface t = Except.error DellNOS9.PyErr.keyError) ∧
    (∀ (c : DellNOS9.Config) (name pre : String),
      DellNOS9.matchPortName name = true →
      DellNOS9.convert_interface c.interface_type = Except.ok pre →
      DellNOS9.construct_url c (some name) "" =
        Except.ok (c.hostname ++ "/api/running/dell/interfaces/interface/" ++
          pre ++ String.mk (replaceChar '/' '-' name.data))) := by
  refine ⟨by decide, by decide, by decide, by decide, by decide, by decide,
    by decide, ?_, ?_⟩
  · intro t ht
    simp only [List.mem_cons, List.not_mem_nil, or_false, not_or] at ht
    obtain ⟨n1, n2, n3, n4, n5, n6, n7⟩ := ht
    simp [DellNOS9.convert_interface, assocFind, DellNOS9.iftypes,
      Ne.symm n1, Ne.symm n2, Ne.symm n3, Ne.symm n4, Ne.symm n5,
      Ne.symm n6, Ne.symm n7]
  · intro c name pre hmatch hconv
    have hpy : DellNOS9.pyMatchPortName name = true := by
      unfold DellNOS9.pyMatchPortName
      simp [hmatch]
    simp [DellNOS9.construct_url, hpy, hconv, String.append_empty]

/-- Claim C9, witness: the translation theorem applied at the unknown
interface type FastEthernet and at the concrete port name 1/0/1. -/
theorem c9_witness :
    DellNOS9.convert_interface "FastEthernet" =
      Except.error DellNOS9.PyErr.keyError ∧
    DellNOS9.construct_url ⟨"host", "u", "p", "GigabitEthernet", ["1/0/1"]⟩
        (some "1/0/1") "" =
      Except.ok ("host" ++ "/api/running/dell/interfaces/interface/" ++
        "gige-" ++ String.mk (replaceChar '/' '-' "1/0/1".data)) :=
  ⟨c9_interface_translation.2.2.2.2.2.2.2.1 "FastEthernet" (by decide),
   c9_interface_translation.2.2.2.2.2.2.2.2
     ⟨"host", "u", "p", "GigabitEthernet", ["1/0/1"]⟩ "1/0/1" "gige-"
     (by decide) (by decide)⟩

/-! ### Claims C1, C2, C3 -/

lemma vlan_append_ne_native (id : String) (h2 : id.data.all Char.isDigit = true) :
    ("vlan/" ++ id) ≠ "vlan/native" := by
  intro he
  have hd : id.data = "native".data := by
    have hc := congrArg String.data he
    rw [String.data_append] at hc
    have h' : "vlan/".data ++ "native".data = "vlan/native".data := by decide
    rw [← h'] at hc
    exact List.append_cancel_left hc
  rw [hd] at h2
  exact absurd h2 (by decide)

lemma parseTagged_of_digits (id : String) (h1 : id ≠ "")
    (h2 : id.data.all Char.isDigit = true) :
    DellNOS9.parseTaggedChannel ("vlan/" ++ id) = some id := by
  obtain ⟨d⟩ := id
  have hne : d ≠ [] := by
    intro h
    subst h
    exact h1 rfl
  have htw : d.takeWhile Char.isDigit = d :=
    List.takeWhile_eq_self_iff.mpr (fun x hx => List.all_eq_true.mp h2 x hx)
  show (if (d.takeWhile Char.isDigit).isEmpty then none
        else some (String.mk (d.takeWhile Char.isDigit))) = some ⟨d⟩
  rw [htw, if_neg (by simp [List.isEmpty_iff, hne])]

/-- Claim C1: for a tagged channel vlan/id (id a nonempty digit string)
and a non-None network identifier, modify_port adds the VLAN to the
trunk exactly when the requested identifier equals id, and otherwise
fails with the AssertionError of the identifier-agreement assert
instead of substituting one identifier for the other. -/
theorem c1_tagged_channel_id_check :
    ∀ (c : DellNOS9.Config) (port id nid resp : String),
      c.ports.filter (fun p => p == port) = [port] →
      id ≠ "" → id.data.all Char.isDigit = true →
      DellNOS9.modify_port c port ("vlan/" ++ id) (some nid) resp =
        (if nid = id then Except.ok [DellNOS9.add_vlan_to_trunk c port id]
         else Except.error DellNOS9.PyErr.assertionError) := by
  intro c port id nid resp hf h1 h2
  simp only [DellNOS9.modify_port, hf]
  rw [if_neg (vlan_append_ne_native id h2), parseTagged_of_digits id h1 h2]

/-- Claim C1, witness: the identifier check applied on the demo switch
at channel vlan/52 with the matching identifier 52 (the trunk-add
command is issued) and with the mismatched identifier 7 (the assert
fires). -/
theorem c1_witness :
    DellNOS9.modify_port demoCfg "1/3" ("vlan/" ++ "52") (some "52") "" =
      (if ("52" : String) = "52"
       then Except.ok [DellNOS9.add_vlan_to_trunk demoCfg "1/3" "52"]
       else Except.error DellNOS9.PyErr.assertionError) ∧
    DellNOS9.modify_port demoCfg "1/3" ("vlan/" ++ "52") (some "7") "" =
      (if ("7" : String) = "52"
       then Except.ok [DellNOS9.add_vlan_to_trunk demoCfg "1/3" "52"]
       else Except.error DellNOS9.PyErr.assertionError) :=
  ⟨c1_tagged_channel_id_check demoCfg "1/3" "52" "52" ""
     (by decide) (by decide) (by decide),
   c1_tagged_channel_id_check demoCfg "1/3" "52" "7" ""
     (by decide) (by decide) (by decide)⟩

/-- Claim C2: for the native channel, modify_port with network
identifier None first queries the current native VLAN and then issues
the command removing that assignment (no untagged), and with identifier
N issues the command setting the native assignment to N (untagged). -/
theorem c2_native_channel :
    ∀ (c : DellNOS9.Config) (port resp : String),
      c.ports.filter (fun p => p == port) = [port] →
      DellNOS9.modify_port c port "vlan/native" none resp =
        Except.ok [DellNOS9.show_request c port,
          DellNOS9.config_request c
            ("interface vlan " ++ DellNOS9.parse_native_vlan resp ++
              "\r\n no untagged " ++ c.interface_type ++ " " ++ port)] ∧
      (∀ n, DellNOS9.modify_port c port "vlan/native" (some n) resp =
        Except.ok [DellNOS9.config_request c
          ("interface vlan " ++ n ++ "\r\n untagged " ++
            c.interface_type ++ " " ++ port)]) := by
  intro c port resp hf
  constructor
  · simp [DellNOS9.modify_port, hf, DellNOS9.remove_native_vlan,
      DellNOS9.get_native_vlan]
  · intro n
    simp [DellNOS9.modify_port, hf, DellNOS9.set_native_vlan]

/-- Claim C2, witness: the native-channel transitions applied on the
demo switch with a device response reporting native VLAN 23: None
removes the native assignment 23, and identifier 77 sets it to 77. -/
theorem c2_witness :
    DellNOS9.modify_port demoCfg "1/3" "vlan/native" none "NativeVlanId:23." =
      Except.ok [DellNOS9.show_request demoCfg "1/3",
        DellNOS9.config_request demoCfg
          ("interface vlan " ++ DellNOS9.parse_native_vlan "NativeVlanId:23." ++
            "\r\n no untagged " ++ demoCfg.interface_type ++ " " ++ "1/3")] ∧
    DellNOS9.modify_port demoCfg "1/3" "vlan/native" (some "77") "NativeVlanId:23." =
      Except.ok [DellNOS9.config_request demoCfg
        ("interface vlan " ++ "77" ++ "\r\n untagged " ++
          demoCfg.interface_type ++ " " ++ "1/3")] :=
  ⟨(c2_native_channel demoCfg "1/3" "NativeVlanId:23." (by decide)).1,
   (c2_native_channel demoCfg "1/3" "NativeVlanId:23." (by decide)).2 "77"⟩

/-- Claim C3, counterexample: on the demo switch and port state,
revert_port does issue exactly the disable PUT followed by the enable
PUT, but the state those two payloads leave behind has shutdown false —
the port ends enabled, not in the disabled state the claim asserts. -/
theorem c3_counterexample :
    DellNOS9.revert_port demoCfg "1/3" = Except.ok [demoShutdownReq, demoOnReq] ∧
    ¬ ((DellNOS9.apply_on_put (DellNOS9.apply_shutdown_put demoPortState)).shutdown
        = true) :=
  ⟨by decide, by decide⟩

/-- Claim C3, amended: for every port of a switch whose interface type
translates, revert_port performs exactly the disable-then-enable
sequence (the shutdown PUT, then the enable PUT, in that order), strips
no VLAN memberships (tagged and native assignments are untouched), and
leaves the port in an enabled factory-default logical state — hybrid
portmode on, switchport on, shutdown off; the disabled state holds only
transiently between the two steps. -/
theorem c3_revert_port :
    ∀ (c : DellNOS9.Config) (iface pre : String),
      DellNOS9.convert_interface c.interface_type = Except.ok pre →
      ∃ r1 r2,
        DellNOS9.port_shutdown c iface = Except.ok r1 ∧
        DellNOS9.port_on c iface = Except.ok r2 ∧
        DellNOS9.revert_port c iface = Except.ok [r1, r2] ∧
        (∀ ps : DellNOS9.PortState,
          (DellNOS9.apply_shutdown_put ps).shutdown = true ∧
          DellNOS9.apply_on_put (DellNOS9.apply_shutdown_put ps) =
            { hybrid := true, switchport := true, shutdown := false,
              taggedVlans := ps.taggedVlans, nativeVlan := ps.nativeVlan }) := by
  intro c iface pre hconv
  have hurl : ∃ url, DellNOS9.construct_url c (some iface) "" = Except.ok url := by
    unfold DellNOS9.construct_url
    cases hm : DellNOS9.pyMatchPortName iface <;> simp [hm, hconv]
  obtain ⟨url, hurl⟩ := hurl
  refine ⟨⟨.PUT, url,
      some ("<interface><name>" ++
        (pre ++ String.mk (replaceChar '/' '-' iface.data)) ++
        "</name><portmode><hybrid>false" ++
        "</hybrid></portmode><shutdown>true</shutdown>" ++ "</interface>")⟩,
    ⟨.PUT, url,
      some ("<interface><name>" ++
        (pre ++ String.mk (replaceChar '/' '-' iface.data)) ++
        "</name><portmode><hybrid>true" ++
        "</hybrid></portmode><switchport></switchport>" ++
        "<shutdown>false</shutdown></interface>")⟩, ?_, ?_, ?_, ?_⟩
  · simp [DellNOS9.port_shutdown, hurl, hconv]
  · simp [DellNOS9.port_on, hurl, hconv]
  · simp [DellNOS9.revert_port, DellNOS9.port_shutdown, DellNOS9.port_on,
      hurl, hconv]
  · intro ps
    exact ⟨rfl, rfl⟩

/-- Claim C3, witness: the amended theorem applied on the demo switch,
port 1/3 and the demo port state: the final state is the enabled
factory-default one with the VLAN assignments untouched. -/
theorem c3_witness :
    DellNOS9.apply_on_put (DellNOS9.apply_shutdown_put demoPortState) =
      { hybrid := true, switchport := true, shutdown := false,
        taggedVlans := demoPortState.taggedVlans,
        nativeVlan := demoPortState.nativeVlan } := by
  obtain ⟨r1, r2, h1, h2, h3, h4⟩ := c3_revert_port demoCfg "1/3" "gige-" (by decide)
  exact (h4 demoPortState).2

/-! ### Claim C10 -/

lemma get_port_networks_entries :
    ∀ (c : DellNOS9.Config) (device : String → String) (ports : List String)
      (res : List (String × List (String × String))),
      DellNOS9.get_port_networks c ports device = Except.ok res →
      ∀ pr ∈ res,
        pr.2.head? =
          some ("vlan/native", DellNOS9.parse_native_vlan (device pr.1)) := by
  intro c device ports
  induction ports with
  | nil =>
    intro res h pr hpr
    simp only [DellNOS9.get_port_networks, Except.ok.injEq] at h
    subst h
    simp at hpr
  | cons p ps ih =>
    intro res h pr hpr
    simp only [DellNOS9.get_port_networks] at h
    cases hv : (DellNOS9.get_vlans c p (device p)).2 with
    | error e => rw [hv] at h; simp at h
    | ok vl =>
      rw [hv] at h
      cases hm : DellNOS9.get_port_networks c ps device with
      | error e => rw [hm] at h; simp at h
      | ok xs =>
        rw [hm] at h
        simp only [Except.ok.injEq] at h
        subst h
        rcases List.mem_cons.mp hpr with he | hin
        · subst he
          simp [DellNOS9.get_native_vlan]
        · exact ih xs hm pr hin

/-- Claim C10: _get_native_vlan returns the pair (vlan/native, parsed
text) for every device response — never None — and therefore the
filter(None, ...) step of get_port_networks never drops the entry: on
every successful query, every returned port's list starts with the
native-VLAN pair. -/
theorem c10_native_entry :
    (∀ (c : DellNOS9.Config) (iface resp : String),
      (DellNOS9.get_native_vlan c iface resp).2 =
        some ("vlan/native", DellNOS9.parse_native_vlan resp)) ∧
    (∀ (c : DellNOS9.Config) (device : String → String) (ports : List String)
      (res : List (String × List (String × String))),
      DellNOS9.get_port_networks c ports device = Except.ok res →
      ∀ pr ∈ res,
        pr.2.head? =
          some ("vlan/native", DellNOS9.parse_native_vlan (device pr.1))) :=
  ⟨fun _ _ _ => rfl, get_port_networks_entries⟩

/-- Claim C10, witness: a full query of port 1/3 on the demo switch
against a concrete device response; the returned list is headed by the
native-VLAN entry parsed from that response. -/
theorem c10_witness :
    DellNOS9.get_port_networks demoCfg ["1/3"]
        (fun _ => "Vlanmembership:\nx\ny\nT52\nNativeVlanId:23.") =
      Except.ok [("1/3", [("vlan/native", "23"), ("vlan/52", "52")])] ∧
    ([("vlan/native", ("23" : String)), ("vlan/52", "52")]).head? =
      some ("vlan/native",
        DellNOS9.parse_native_vlan "Vlanmembership:\nx\ny\nT52\nNativeVlanId:23.") :=
  ⟨by decide,
   c10_native_entry.2 demoCfg (fun _ => "Vlanmembership:\nx\ny\nT52\nNativeVlanId:23.")
     ["1/3"] [("1/3", [("vlan/native", "23"), ("vlan/52", "52")])]
     (by decide) ("1/3", [("vlan/native", "23"), ("vlan/52", "52")]) (by decide)⟩

/-! ### Claim C5 -/

lemma group_create_cases (s : Registry.RState) (l : String) :
    (Registry.group_create s l).1 = none ∨ (Registry.group_create s l).2 = s := by
  unfold Registry.group_create
  repeat' split
  all_goals first | (left; rfl) | (right; rfl)

lemma project_create_cases (s : Registry.RState) (l g : String) :
    (Registry.project_create s l g).1 = none ∨
      (Registry.project_create s l g).2 = s := by
  unfold Registry.project_create
  repeat' split
  all_goals first | (left; rfl) | (right; rfl)

lemma node_register_cases (s : Registry.RState) (l : String) :
    (Registry.node_register s l).1 = none ∨ (Registry.node_register s l).2 = s := by
  unfold Registry.node_register
  repeat' split
  all_goals first | (left; rfl) | (right; rfl)

lemma node_register_nic_cases (s : Registry.RState) (node nicL mac : String) :
    (Registry.node_register_nic s node nicL mac).1 = none ∨
      (Registry.node_register_nic s node nicL mac).2 = s := by
  unfold Registry.node_register_nic
  repeat' split
  all_goals first | (left; rfl) | (right; rfl)

lemma network_create_cases (s : Registry.RState) (l p : String) :
    (Registry.network_create s l p).1 = none ∨
      (Registry.network_create s l p).2 = s := by
  unfold Registry.network_create
  repeat' split
  all_goals first | (left; rfl) | (right; rfl)

lemma switch_register_cases (s : Registry.RState) (l : String) :
    (Registry.switch_register s l).1 = none ∨
      (Registry.switch_register s l).2 = s := by
  unfold Registry.switch_register
  repeat' split
  all_goals first | (left; rfl) | (right; rfl)

lemma port_register_cases (s : Registry.RState) (sw portL : String) :
    (Registry.port_register s sw portL).1 = none ∨
      (Registry.port_register s sw portL).2 = s := by
  unfold Registry.port_register
  repeat' split
  all_goals first | (left; rfl) | (right; rfl)

lemma project_connect_node_cases (s : Registry.RState) (p node : String) :
    (Registry.project_connect_node s p node).1 = none ∨
      (Registry.project_connect_node s p node).2 = s := by
  unfold Registry.project_connect_node
  repeat' split
  all_goals first | (left; rfl) | (right; rfl)

lemma port_connect_nic_cases (s : Registry.RState) (sw portL node nicL : String) :
    (Registry.port_connect_nic s sw portL node nicL).1 = none ∨
      (Registry.port_connect_nic s sw portL node nicL).2 = s := by
  unfold Registry.port_connect_nic
  repeat' split
  all_goals first | (left; rfl) | (right; rfl)

lemma node_connect_network_cases (s : Registry.RState) (node nicL net : String) :
    (Registry.node_connect_network s node nicL net).1 = none ∨
      (Registry.node_connect_network s node nicL net).2 = s := by
  unfold Registry.node_connect_network
  repeat' split
  all_goals first | (left; rfl) | (right; rfl)

lemma node_detach_network_cases (s : Registry.RState) (node nicL : String) :
    (Registry.node_detach_network s node nicL).1 = none ∨
      (Registry.node_detach_network s node nicL).2 = s := by
  unfold Registry.node_detach_network
  repeat' split
  all_goals first | (left; rfl) | (right; rfl)

/-- Claim C5: every modelled create and connect operation of the
registry either succeeds or leaves the entity graph exactly as it was —
no failure mutates the state — and the uniqueness and occupancy
violations (duplicate group label, occupied port slot, nic already
attached to a network) fail with DuplicateError while leaving the state
unchanged. -/
theorem c5_no_partial_mutation :
    ∀ (s : Registry.RState) (l g sw portL node nicL net mac : String),
      ((Registry.group_create s l).1 ≠ none →
        (Registry.group_create s l).2 = s) ∧
      ((Registry.project_create s l g).1 ≠ none →
        (Registry.project_create s l g).2 = s) ∧
      ((Registry.node_register s l).1 ≠ none →
        (Registry.node_register s l).2 = s) ∧
      ((Registry.node_register_nic s node nicL mac).1 ≠ none →
        (Registry.node_register_nic s node nicL mac).2 = s) ∧
      ((Registry.network_create s l g).1 ≠ none →
        (Registry.network_create s l g).2 = s) ∧
      ((Registry.switch_register s l).1 ≠ none →
        (Registry.switch_register s l).2 = s) ∧
      ((Registry.port_register s sw portL).1 ≠ none →
        (Registry.port_register s sw portL).2 = s) ∧
      ((Registry.project_connect_node s l node).1 ≠ none →
        (Registry.project_connect_node s l node).2 = s) ∧
      ((Registry.port_connect_nic s sw portL node nicL).1 ≠ none →
        (Registry.port_connect_nic s sw portL node nicL).2 = s) ∧
      ((Registry.node_connect_network s node nicL net).1 ≠ none →
        (Registry.node_connect_network s node nicL net).2 = s) ∧
      ((Registry.node_detach_network s node nicL).1 ≠ none →
        (Registry.node_detach_network s node nicL).2 = s) ∧
      (l ∈ s.groups →
        Registry.group_create s l = (some Registry.RErr.DuplicateError, s)) ∧
      (∀ (n0 : String) (p0 : Option String) (nr : Registry.NicRec),
        s.switches.contains sw = true →
        assocFind s.ports (sw, portL) = some (some n0) →
        assocFind s.nodes node = some p0 →
        assocFind s.nics nicL = some nr → nr.node = node →
        Registry.port_connect_nic s sw portL node nicL =
          (some Registry.RErr.DuplicateError, s)) ∧
      (∀ (proj m : String) (nr : Registry.NicRec) (netr : Registry.NetworkRec),
        assocFind s.nodes node = some (some proj) →
        assocFind s.nics nicL = some nr → nr.node = node →
        assocFind s.networks net = some netr → netr.project = proj →
        nr.network = some m →
        Registry.node_connect_network s node nicL net =
          (some Registry.RErr.DuplicateError, s)) := by
  intro s l g sw portL node nicL net mac
  refine ⟨fun h => (group_create_cases s l).resolve_left h,
    fun h => (project_create_cases s l g).resolve_left h,
    fun h => (node_register_cases s l).resolve_left h,
    fun h => (node_register_nic_cases s node nicL mac).resolve_left h,
    fun h => (network_create_cases s l g).resolve_left h,
    fun h => (switch_register_cases s l).resolve_left h,
    fun h => (port_register_cases s sw portL).resolve_left h,
    fun h => (project_connect_node_cases s l node).resolve_left h,
    fun h => (port_connect_nic_cases s sw portL node nicL).resolve_left h,
    fun h => (node_connect_network_cases s node nicL net).resolve_left h,
    fun h => (node_detach_network_cases s node nicL).resolve_left h,
    ?_, ?_, ?_⟩
  · intro hl
    simp [Registry.group_create, hl]
  · intro n0 p0 nr hsw hport hnode hnic hown
    have hsw' : sw ∈ s.switches := by simpa using hsw
    simp [Registry.port_connect_nic, hsw', hport, hnode, hnic, hown]
  · intro proj m nr netr hnode hnic hown hnet hproj hm
    simp [Registry.node_connect_network, hnode, hnic, hown, hnet, hproj, hm]

/-- Claim C5, witness: on the populated demo registry, re-creating
group g, connecting nic2 to the occupied port (sw,1), and re-attaching
the attached nic1 to its network all fail with DuplicateError and
return the state unchanged, and re-registering node nd leaves the state
unchanged. -/
theorem c5_witness :
    Registry.group_create demoRegState "g" =
      (some Registry.RErr.DuplicateError, demoRegState) ∧
    Registry.port_connect_nic demoRegState "sw" "1" "nd" "nic2" =
      (some Registry.RErr.DuplicateError, demoRegState) ∧
    Registry.node_connect_network demoRegState "nd" "nic1" "net" =
      (some Registry.RErr.DuplicateError, demoRegState) ∧
    (Registry.node_register demoRegState "nd").2 = demoRegState := by
  have h1 := c5_no_partial_mutation demoRegState "g" "g" "sw" "1" "nd" "nic2" "net" "m"
  have h2 := c5_no_partial_mutation demoRegState "g" "g" "sw" "1" "nd" "nic1" "net" "m"
  have h3 := c5_no_partial_mutation demoRegState "nd" "g" "sw" "1" "nd" "nic1" "net" "m"
  refine ⟨?_, ?_, ?_, ?_⟩
  · exact h1.2.2.2.2.2.2.2.2.2.2.2.1 (by decide)
  · exact h1.2.2.2.2.2.2.2.2.2.2.2.2.1 "nic1" (some "pj") ⟨"nd", "m2", none⟩
      (by decide) (by decide) (by decide) (by decide) (by decide)
  · exact h2.2.2.2.2.2.2.2.2.2.2.2.2.2 "pj" "net" ⟨"nd", "m1", some "net"⟩
      ⟨"pj", ["nic1"]⟩ (by decide) (by decide) (by decide) (by decide)
      (by decide) (by decide)
  · exact h3.2.2.1 (by decide)

/-! ### Claim C8 -/

/-- Claim C8: list_free_nodes returns exactly the labels of the nodes
with no owning project, the returned sequence is sorted, and on the
registry obtained by registering data, master-control-program and
robocop (in the test's registration order) with no project connections
it returns exactly those three labels in sorted order. -/
theorem c8_list_free_nodes :
    (∀ (s : Registry.RState) (l : String),
      l ∈ Registry.list_free_nodes s ↔ (l, none) ∈ s.nodes) ∧
    (∀ s : Registry.RState, List.Sorted strLeP (Registry.list_free_nodes s)) ∧
    Registry.list_free_nodes
        (Registry.node_register (Registry.node_register
          (Registry.node_register Registry.empty
            "master-control-program").2 "robocop").2 "data").2 =
      ["data", "master-control-program", "robocop"] := by
  refine ⟨fun s l => ?_, fun s => List.sorted_insertionSort strLeP _, by decide⟩
  unfold Registry.list_free_nodes
  rw [(List.perm_insertionSort strLeP _).mem_iff]
  simp only [List.mem_map, List.mem_filter]
  constructor
  · rintro ⟨p, ⟨hp, hnone⟩, rfl⟩
    have h2 : p.2 = none := Option.isNone_iff_eq_none.mp hnone
    have hp' : p = (p.1, none) := by
      rw [← h2]
    rw [← hp']
    exact hp
  · intro hp
    exact ⟨(l, none), ⟨hp, rfl⟩, rfl⟩

/-! ### Claim C6 -/

lemma connect_ok_inv (s : Registry.RState) (node nicL net : String)
    (s' : Registry.RState)
    (heq : Registry.node_connect_network s node nicL net = (none, s')) :
    ∃ nr netr, assocFind s.nics nicL = some nr ∧
      assocFind s.networks net = some netr ∧ nr.network = none ∧
      s' = { s with
               nics := Registry.setNicNetwork s.nics nicL (some net),
               networks := Registry.addNicToNetwork s.networks net nicL } := by
  unfold Registry.node_connect_network at heq
  split at heq
  · simp at heq
  · rename_i proj? hnode
    split at heq
    · simp at heq
    · rename_i nr hnic
      split at heq
      · simp at heq
      · rename_i hown
        split at heq
        · simp at heq
        · rename_i proj hproj?
          split at heq
          · simp at heq
          · rename_i netr hnet
            split at heq
            · simp at heq
            · rename_i hproj
              split at heq
              · simp at heq
              · rename_i hnone
                simp only [Prod.mk.injEq, true_and] at heq
                exact ⟨nr, netr, hnic, hnet, hnone, heq.symm⟩

lemma detach_ok_inv (s : Registry.RState) (node nicL : String)
    (s' : Registry.RState)
    (heq : Registry.node_detach_network s node nicL = (none, s')) :
    ∃ nr net, assocFind s.nics nicL = some nr ∧ nr.network = some net ∧
      s' = { s with
               nics := Registry.setNicNetwork s.nics nicL none,
               networks := Registry.removeNicFromNetwork s.networks net nicL } := by
  unfold Registry.node_detach_network at heq
  split at heq
  · simp at heq
  · rename_i nr hnic
    split at heq
    · simp at heq
    · rename_i hown
      split at heq
      · simp at heq
      · rename_i net hcur
        simp only [Prod.mk.injEq, true_and] at heq
        exact ⟨nr, net, hnic, hcur, heq.symm⟩

lemma sym_after_connect (s : Registry.RState) (nicL net : String)
    (nr : Registry.NicRec) (netr : Registry.NetworkRec)
    (hs : Registry.Sym s)
    (hnic : assocFind s.nics nicL = some nr)
    (hnet : assocFind s.networks net = some netr)
    (hnone : nr.network = none) :
    Registry.Sym { s with
                    nics := Registry.setNicNetwork s.nics nicL (some net),
                    networks := Registry.addNicToNetwork s.networks net nicL } := by
  intro nl nr' hfind'
  simp only [Registry.setNicNetwork, assocFind_mapVal] at hfind'
  cases hf0 : assocFind s.nics nl with
  | none => rw [hf0] at hfind'; simp at hfind'
  | some r0 =>
    rw [hf0] at hfind'
    simp only [Option.map_some'] at hfind'
    injection hfind' with hfind'
    by_cases hnl : nl = nicL
    · subst hnl
      rw [if_pos rfl] at hfind'
      have hr0 : r0 = nr := by
        rw [hf0] at hnic
        injection hnic
      subst hr0
      subst hfind'
      constructor
      · intro net' hnet'
        have hnn : net' = net := by simpa using hnet'.symm
        subst hnn
        refine ⟨{ netr with nics := nl :: netr.nics }, ?_, List.mem_cons_self _ _⟩
        show assocFind (Registry.addNicToNetwork s.networks net' nl) net' =
          some { netr with nics := nl :: netr.nics }
        rw [Registry.addNicToNetwork, assocFind_mapVal, hnet]
        simp
      · intro net'' netr'' hn'' hmem
        simp only [Registry.addNicToNetwork, assocFind_mapVal] at hn''
        cases hb : assocFind s.networks net'' with
        | none => rw [hb] at hn''; simp at hn''
        | some netr0 =>
          rw [hb] at hn''
          simp only [Option.map_some'] at hn''
          injection hn'' with hn''
          by_cases hnn2 : net'' = net
          · subst hnn2
            simp
          · rw [if_neg hnn2] at hn''
            subst hn''
            have := (hs nl r0 hnic).2 net'' netr0 hb hmem
            rw [hnone] at this
            exact absurd this (by simp)
    · rw [if_neg hnl] at hfind'
      subst hfind'
      obtain ⟨hfwd0, hbwd0⟩ := hs nl r0 hf0
      constructor
      · intro net' hnet'
        obtain ⟨netr0, hb, hmemb⟩ := hfwd0 net' hnet'
        by_cases hnn2 : net' = net
        · subst hnn2
          refine ⟨{ netr0 with nics := nicL :: netr0.nics }, ?_,
            List.mem_cons_of_mem _ hmemb⟩
          show assocFind (Registry.addNicToNetwork s.networks net' nicL) net' =
            some { netr0 with nics := nicL :: netr0.nics }
          rw [Registry.addNicToNetwork, assocFind_mapVal, hb]
          simp
        · refine ⟨netr0, ?_, hmemb⟩
          show assocFind (Registry.addNicToNetwork s.networks net nicL) net' =
            some netr0
          rw [Registry.addNicToNetwork, assocFind_mapVal, hb]
          simp [hnn2]
      · intro net'' netr'' hn'' hmem
        simp only [Registry.addNicToNetwork, assocFind_mapVal] at hn''
        cases hb : assocFind s.networks net'' with
        | none => rw [hb] at hn''; simp at hn''
        | some netr0 =>
          rw [hb] at hn''
          simp only [Option.map_some'] at hn''
          injection hn'' with hn''
          by_cases hnn2 : net'' = net
          · subst hnn2
            rw [if_pos rfl] at hn''
            subst hn''
            have hmem0 : nl ∈ netr0.nics := by
              rcases List.mem_cons.mp hmem with he | hi
              · exact absurd he hnl
              · exact hi
            exact hbwd0 net'' netr0 hb hmem0
          · rw [if_neg hnn2] at hn''
            subst hn''
            exact hbwd0 net'' netr0 hb hmem

lemma sym_after_detach (s : Registry.RState) (nicL net : String)
    (nr : Registry.NicRec)
    (hs : Registry.Sym s)
    (hnic : assocFind s.nics nicL = some nr)
    (hcur : nr.network = some net) :
    Registry.Sym { s with
                    nics := Registry.setNicNetwork s.nics nicL none,
                    networks := Registry.removeNicFromNetwork s.networks net nicL } := by
  intro nl nr' hfind'
  simp only [Registry.setNicNetwork, assocFind_mapVal] at hfind'
  cases hf0 : assocFind s.nics nl with
  | none => rw [hf0] at hfind'; simp at hfind'
  | some r0 =>
    rw [hf0] at hfind'
    simp only [Option.map_some'] at hfind'
    injection hfind' with hfind'
    by_cases hnl : nl = nicL
    · subst hnl
      rw [if_pos rfl] at hfind'
      have hr0 : r0 = nr := by
        rw [hf0] at hnic
        injection hnic
      subst hr0
      subst hfind'
      constructor
      · intro net' hnet'
        exact absurd hnet' (by simp)
      · intro net'' netr'' hn'' hmem
        simp only [Registry.removeNicFromNetwork, assocFind_mapVal] at hn''
        cases hb : assocFind s.networks net'' with
        | none => rw [hb] at hn''; simp at hn''
        | some netr0 =>
          rw [hb] at hn''
          simp only [Option.map_some'] at hn''
          injection hn'' with hn''
          by_cases hnn2 : net'' = net
          · subst hnn2
            rw [if_pos rfl] at hn''
            subst hn''
            simp only [List.mem_filter, decide_eq_true_eq] at hmem
            exact absurd rfl hmem.2
          · rw [if_neg hnn2] at hn''
            subst hn''
            have := (hs nl r0 hnic).2 net'' netr0 hb hmem
            rw [hcur] at this
            injection this with this
            exact absurd this.symm hnn2
    · rw [if_neg hnl] at hfind'
      subst hfind'
      obtain ⟨hfwd0, hbwd0⟩ := hs nl r0 hf0
      constructor
      · intro net' hnet'
        obtain ⟨netr0, hb, hmemb⟩ := hfwd0 net' hnet'
        by_cases hnn2 : net' = net
        · subst hnn2
          refine ⟨{ netr0 with nics := netr0.nics.filter (· ≠ nicL) }, ?_, ?_⟩
          · show assocFind (Registry.removeNicFromNetwork s.networks net' nicL) net' =
              some { netr0 with nics := netr0.nics.filter (· ≠ nicL) }
            rw [Registry.removeNicFromNetwork, assocFind_mapVal, hb]
            simp
          · simp only [List.mem_filter, decide_eq_true_eq]
            exact ⟨hmemb, hnl⟩
        · refine ⟨netr0, ?_, hmemb⟩
          show assocFind (Registry.removeNicFromNetwork s.networks net nicL) net' =
            some netr0
          rw [Registry.removeNicFromNetwork, assocFind_mapVal, hb]
          simp [hnn2]
      · intro net'' netr'' hn'' hmem
        simp only [Registry.removeNicFromNetwork, assocFind_mapVal] at hn''
        cases hb : assocFind s.networks net'' with
        | none => rw [hb] at hn''; simp at hn''
        | some netr0 =>
          rw [hb] at hn''
          simp only [Option.map_some'] at hn''
          injection hn'' with hn''
          by_cases hnn2 : net'' = net
          · subst hnn2
            rw [if_pos rfl] at hn''
            subst hn''
            have hmem0 : nl ∈ netr0.nics := (List.mem_filter.mp hmem).1
            exact hbwd0 net'' netr0 hb hmem0
          · rw [if_neg hnn2] at hn''
            subst hn''
            exact hbwd0 net'' netr0 hb hmem

/-- Claim C6: the nic-network symmetry invariant — a nic's network
pointer names a network exactly when the nic is in that network's nic
set — is preserved by node_connect_network, which on success sets both
sides (the nic's pointer and the network's set), and by
node_detach_network, which on success clears both sides: the nic's
pointer becomes None and the nic is in no network's set. -/
theorem c6_nic_network_symmetry :
    (∀ (s : Registry.RState) (node nicL net : String) (s' : Registry.RState),
      Registry.Sym s →
      Registry.node_connect_network s node nicL net = (none, s') →
      Registry.Sym s' ∧
      (∃ nr, assocFind s'.nics nicL = some nr ∧ nr.network = some net) ∧
      (∃ netr, assocFind s'.networks net = some netr ∧ nicL ∈ netr.nics)) ∧
    (∀ (s : Registry.RState) (node nicL : String) (s' : Registry.RState),
      Registry.Sym s →
      Registry.node_detach_network s node nicL = (none, s') →
      Registry.Sym s' ∧
      (∃ nr, assocFind s'.nics nicL = some nr ∧ nr.network = none) ∧
      (∀ net netr, assocFind s'.networks net = some netr →
        nicL ∉ netr.nics)) := by
  constructor
  · intro s node nicL net s' hs heq
    obtain ⟨nr, netr, hnic, hnet, hnone, hs'⟩ := connect_ok_inv s node nicL net s' heq
    subst hs'
    refine ⟨sym_after_connect s nicL net nr netr hs hnic hnet hnone, ?_, ?_⟩
    · refine ⟨{ nr with network := some net }, ?_, rfl⟩
      show assocFind (Registry.setNicNetwork s.nics nicL (some net)) nicL =
        some { nr with network := some net }
      rw [Registry.setNicNetwork, assocFind_mapVal, hnic]
      simp
    · refine ⟨{ netr with nics := nicL :: netr.nics }, ?_, List.mem_cons_self _ _⟩
      show assocFind (Registry.addNicToNetwork s.networks net nicL) net =
        some { netr with nics := nicL :: netr.nics }
      rw [Registry.addNicToNetwork, assocFind_mapVal, hnet]
      simp
  · intro s node nicL s' hs heq
    obtain ⟨nr, net, hnic, hcur, hs'⟩ := detach_ok_inv s node nicL s' heq
    subst hs'
    have hsym' := sym_after_detach s nicL net nr hs hnic hcur
    have hlook : assocFind (Registry.setNicNetwork s.nics nicL none) nicL =
        some { nr with network := none } := by
      rw [Registry.setNicNetwork, assocFind_mapVal, hnic]
      simp
    refine ⟨hsym', ⟨{ nr with network := none }, hlook, rfl⟩, ?_⟩
    intro net' netr' hn' hmem
    have := (hsym' nicL { nr with network := none } hlook).2 net' netr' hn' hmem
    exact absurd this (by simp)

lemma sym_demoNet0 : Registry.Sym demoNet0 := by
  intro nl nr h
  have hmem := assocFind_mem h
  simp only [demoNet0, List.mem_singleton, Prod.mk.injEq] at hmem
  obtain ⟨h1, h2⟩ := hmem
  subst h1
  subst h2
  constructor
  · intro net hnet
    exact absurd hnet (by simp)
  · intro net netr hn hm
    have hmem2 := assocFind_mem hn
    simp only [demoNet0, List.mem_singleton, Prod.mk.injEq] at hmem2
    obtain ⟨-, h4⟩ := hmem2
    subst h4
    exact absurd hm (by simp)

/-- Claim C6, witness: connecting nic eth0 of node nd to network
hammernet on the demo registry yields the state with both sides set and
the invariant intact, and detaching it again yields the original state
with both sides clear. -/
theorem c6_witness :
    (Registry.Sym demoNet1 ∧
      (∃ nr, assocFind demoNet1.nics "eth0" = some nr ∧
        nr.network = some "hammernet") ∧
      (∃ netr, assocFind demoNet1.networks "hammernet" = some netr ∧
        "eth0" ∈ netr.nics)) ∧
    (Registry.Sym demoNet0 ∧
      (∃ nr, assocFind demoNet0.nics "eth0" = some nr ∧ nr.network = none) ∧
      (∀ net netr, assocFind demoNet0.networks net = some netr →
        "eth0" ∉ netr.nics)) := by
  have h1 := c6_nic_network_symmetry.1 demoNet0 "nd" "eth0" "hammernet" demoNet1
    sym_demoNet0 (by decide)
  have h2 := c6_nic_network_symmetry.2 demoNet1 "nd" "eth0" demoNet0 h1.1
    (by decide)
  exact ⟨h1, h2⟩
